import Mathlib

/-!
Verification of the loan-calculator amortization core
(`src/loan_calculator/app.py`) against its natural-language specification.

The computational core is embedded shallowly over exact rationals (`ℚ`):
Python floats become `ℚ`, the fallible float division in `monthly_payment`
(which raises `ZeroDivisionError` when the denominator is exactly zero)
becomes an `Option ℚ`, and the fixed `for _ in range(1, 362)` loop of
`amortization` becomes structural recursion on an explicit fuel argument
instantiated at 361 (the number of elements of `range(1, 362)`).
-/

namespace LoanCalc

/-- Embeds `convert_down_payment` (app.py lines 130-134):
`if 0 <= down_pmt <= 1: return sale_price * down_pmt else: return down_pmt`. -/
def convert_down_payment (down_pmt sale_price : ℚ) : ℚ :=
  if 0 ≤ down_pmt ∧ down_pmt ≤ 1 then sale_price * down_pmt else down_pmt

/-- Embeds `convert_rates` (app.py lines 137-141):
`if 0 <= rate <= 1: return rate else: return rate / 100`. -/
def convert_rates (rate : ℚ) : ℚ :=
  if 0 ≤ rate ∧ rate ≤ 1 then rate else rate / 100

/-- Embeds `monthly_payment` (app.py lines 144-148):
`numer = r * (1 + r) ** 361`, `denom = (1 + r) ** 361 - 1`,
`return financed_amt * (numer / denom)`.
Python float division raises `ZeroDivisionError` when `denom == 0`,
so the embedding returns `none` exactly there. -/
def monthly_payment (monthly_interest_rate financed_amt : ℚ) : Option ℚ :=
  let numer : ℚ := monthly_interest_rate * (1 + monthly_interest_rate) ^ 361
  let denom : ℚ := (1 + monthly_interest_rate) ^ 361 - 1
  if denom = 0 then none else some (financed_amt * (numer / denom))

/-- Embeds `principal_payment` (app.py lines 151-154):
`return monthly_payment - (financed_amt * monthly_interest_rate)`. -/
def principal_payment (monthly_payment monthly_interest_rate financed_amt : ℚ) : ℚ :=
  monthly_payment - financed_amt * monthly_interest_rate

/-- One iteration of the `amortization` loop body (app.py lines 164-176),
iterated `fuel` times; the balance `financed_amt` is the loop-carried state.
Returns the three lists `(principal_pmt, interest_pmt, balance)` built by
the loop, in the order the source returns them. -/
def amortizationAux (monthly_payment monthly_interest_rate : ℚ) :
    ℚ → Nat → List ℚ × List ℚ × List ℚ
  | _, 0 => ([], [], [])
  | financed_amt, Nat.succ n =>
    let principal : ℚ :=
      principal_payment monthly_payment monthly_interest_rate financed_amt
    let interest : ℚ := monthly_payment - principal
    let rest :=
      amortizationAux monthly_payment monthly_interest_rate (financed_amt - principal) n
    (principal :: rest.1, interest :: rest.2.1, (financed_amt - principal) :: rest.2.2)

/-- Embeds `amortization` (app.py lines 157-178): the loop
`for _ in range(1, 362)` executes its body exactly 361 times. -/
def amortization (monthly_payment monthly_interest_rate financed_amt : ℚ) :
    List ℚ × List ℚ × List ℚ :=
  amortizationAux monthly_payment monthly_interest_rate financed_amt 361

/-- Modelled from the spec (§4.2 `computeSchedule`), for the refinement
claim comparing step orders: per period, first
`interestPayment = balance * rate`, then `principalPayment = payment - interestPayment`,
then `balance -= principalPayment`; the result triple is
`(principalPayment, interestPayment, remainingBalance)`. -/
def specScheduleStep (monthlyPayment monthlyInterestRate balance : ℚ) : ℚ × ℚ × ℚ :=
  let interestPayment : ℚ := balance * monthlyInterestRate
  let principalPayment : ℚ := monthlyPayment - interestPayment
  (principalPayment, interestPayment, balance - principalPayment)

/-- The code's loop body (app.py lines 164-176) as a single step on the
balance, returning the `(principal, interest, new balance)` triple it
appends to the three lists. -/
def codeScheduleStep (monthly_payment monthly_interest_rate financed_amt : ℚ) :
    ℚ × ℚ × ℚ :=
  let principal : ℚ :=
    principal_payment monthly_payment monthly_interest_rate financed_amt
  let interest : ℚ := monthly_payment - principal
  (principal, interest, financed_amt - principal)

/-- The balance after iterating the loop body `n` times from `financed_amt`. -/
def iterBalance (monthly_payment monthly_interest_rate : ℚ) : ℚ → Nat → ℚ
  | financed_amt, 0 => financed_amt
  | financed_amt, Nat.succ n =>
    iterBalance monthly_payment monthly_interest_rate
      (financed_amt - principal_payment monthly_payment monthly_interest_rate financed_amt) n

end LoanCalc

namespace LoanCalc

theorem amortizationAux_succ (p r b : ℚ) (n : Nat) :
    amortizationAux p r b (n + 1) =
      (principal_payment p r b ::
         (amortizationAux p r (b - principal_payment p r b) n).1,
       (p - principal_payment p r b) ::
         (amortizationAux p r (b - principal_payment p r b) n).2.1,
       (b - principal_payment p r b) ::
         (amortizationAux p r (b - principal_payment p r b) n).2.2) := rfl

theorem amortization_first_interest (p r b : ℚ) :
    (amortization p r b).2.1.getD 0 0 = b * r := by
  rw [amortization, show (361 : Nat) = 360 + 1 from rfl, amortizationAux_succ]
  simp [principal_payment]

theorem amortizationAux_length (p r b : ℚ) (n : Nat) :
    (amortizationAux p r b n).1.length = n ∧
    (amortizationAux p r b n).2.1.length = n ∧
    (amortizationAux p r b n).2.2.length = n := by
  induction n generalizing b with
  | zero => simp [amortizationAux]
  | succ n ih =>
    simpa [amortizationAux] using ih (b - principal_payment p r b)

theorem amortizationAux_principal_sum (p r b : ℚ) (n : Nat) :
    (amortizationAux p r b n).1.sum = b - iterBalance p r b n := by
  induction n generalizing b with
  | zero => simp [amortizationAux, iterBalance]
  | succ n ih =>
    have h := ih (b - principal_payment p r b)
    simp only [amortizationAux, iterBalance, List.sum_cons]
    rw [h]
    ring

theorem iterBalance_closed_form (p r b : ℚ) (hr : r ≠ 0) (n : Nat) :
    iterBalance p r b n = b * (1 + r) ^ n - p * ((1 + r) ^ n - 1) / r := by
  induction n generalizing b with
  | zero => simp [iterBalance]
  | succ n ih =>
    rw [iterBalance, ih]
    simp only [principal_payment]
    field_simp
    ring

theorem annuity_factor_lt (r A : ℚ) (hr : 0 < r) (hr' : r < 360 / 361)
    (hbern : 1 + 361 * r ≤ A) : r * A < A - 1 := by
  have h1r : (0:ℚ) < 1 - r := by
    have h361 : (360:ℚ) / 361 < 1 := by norm_num
    linarith
  have e1 : (1 + 361 * r) * (1 - r) ≤ A * (1 - r) :=
    mul_le_mul_of_nonneg_right hbern h1r.le
  have e2 : (0:ℚ) < r * (360 - 361 * r) := mul_pos hr (by linarith)
  nlinarith [e1, e2]

theorem amortizationAux_balance_chain (p r : ℚ) (hr : 0 ≤ r) (n : Nat) (b : ℚ)
    (hb : b * r < p) :
    List.Chain' (fun x y => y ≤ x) (b :: (amortizationAux p r b n).2.2) := by
  induction n generalizing b with
  | zero => simp [amortizationAux]
  | succ n ih =>
    have hstep : 0 ≤ principal_payment p r b := by
      simp only [principal_payment]
      nlinarith
    have hb' : (b - principal_payment p r b) * r < p := by
      calc (b - principal_payment p r b) * r ≤ b * r := by nlinarith
        _ < p := hb
    have htail := ih (b - principal_payment p r b) hb'
    simpa [amortizationAux, List.chain'_cons] using ⟨hstep, htail⟩

theorem amortizationAux_row_identity (p r : ℚ) (n : Nat) (b : ℚ) (i : Nat)
    (hi : i < n) :
    (amortizationAux p r b n).1.getD i 0 + (amortizationAux p r b n).2.1.getD i 0 = p ∧
    (amortizationAux p r b n).2.2.getD i 0 =
      (if i = 0 then b else (amortizationAux p r b n).2.2.getD (i - 1) 0) -
        (amortizationAux p r b n).1.getD i 0 := by
  induction n generalizing b i with
  | zero => omega
  | succ n ih =>
    cases i with
    | zero => simp [amortizationAux]
    | succ i =>
      have ih' := ih (b - principal_payment p r b) i (by omega)
      cases i with
      | zero =>
        simpa [amortizationAux] using ih'
      | succ j =>
        simpa [amortizationAux] using ih'

/-- Claim C1 (counterexample): at the concrete input
`(monthly_payment, rate, financed_amt) = (1, 1, 1)` the schedule does NOT
have 360 rows: the loop `range(1, 362)` runs 361 times. -/
theorem C1_counterexample : ¬ ((amortization 1 1 1).2.2.length = 360) := by
  have h := (amortizationAux_length 1 1 1 361).2.2
  simp only [amortization] at *
  rw [h]
  norm_num

/-- Claim C1 (amended): for every monthly payment, monthly interest rate and
financed amount, the schedule produced by `amortization` has exactly 361
rows in each of its three parallel lists (principal, interest, balance),
one per loop iteration of `range(1, 362)`. -/
theorem C1_schedule_length (p r b : ℚ) :
    (amortization p r b).1.length = 361 ∧
    (amortization p r b).2.1.length = 361 ∧
    (amortization p r b).2.2.length = 361 := by
  simpa [amortization] using amortizationAux_length p r b 361

/-- Claim C2 (counterexample): at rate 1 and financed amount 1 the payment
returned by `monthly_payment` differs from the annuity formula with
exponent N = 360: the code's exponent is 361. -/
theorem C2_counterexample :
    monthly_payment 1 1 = some ((2:ℚ) ^ 361 / ((2:ℚ) ^ 361 - 1)) ∧
    (2:ℚ) ^ 361 / ((2:ℚ) ^ 361 - 1) ≠
      1 * (1 * ((1:ℚ) + 1) ^ 360 / (((1:ℚ) + 1) ^ 360 - 1)) := by
  constructor
  · simp only [monthly_payment]
    rw [if_neg (by norm_num : ((1:ℚ) + 1) ^ 361 - 1 ≠ 0)]
    norm_num
  · norm_num

/-- Claim C2 (amended): whenever the denominator is nonzero, the
monthly-payment operation returns
`financedAmt * (r * (1+r)^N / ((1+r)^N - 1))` with exponent N = 361 — not
360 — and the schedule loop runs the same period count, 361. -/
theorem C2_payment_exponent (r F p b : ℚ) (h : (1 + r) ^ 361 - 1 ≠ 0) :
    monthly_payment r F =
      some (F * (r * (1 + r) ^ 361 / ((1 + r) ^ 361 - 1))) ∧
    (amortization p r b).1.length = 361 := by
  constructor
  · simp only [monthly_payment]
    rw [if_neg h]
  · simpa [amortization] using (amortizationAux_length p r b 361).1

/-- Claim C2 (witness): the amended payment-formula claim instantiated at
rate 1, financed amount 1. -/
theorem C2_witness :
    ((1:ℚ) + 1) ^ 361 - 1 ≠ 0 ∧
    (monthly_payment 1 1 =
       some (1 * (1 * ((1:ℚ) + 1) ^ 361 / (((1:ℚ) + 1) ^ 361 - 1))) ∧
     (amortization 0 1 0).1.length = 361) :=
  ⟨by norm_num, C2_payment_exponent 1 1 0 0 (by norm_num)⟩

/-- Claim C3: at zero monthly interest rate the code's `monthly_payment`
computes denominator `(1+0)**361 - 1 == 0.0` and evaluates `0.0 / 0.0`,
which raises `ZeroDivisionError` in Python (embedded as `none`); there is
no zero-rate branch returning `financed_amt / termMonths`. -/
theorem C3_zero_rate_error (F : ℚ) : monthly_payment 0 F = none := by
  norm_num [monthly_payment]

/-- Claim C4: for every financed amount F > 0 and monthly rate r > 0, the
payment returned by the program's own `monthly_payment` makes the sum of
the schedule's principal payments exactly F in exact rational
arithmetic. -/
theorem C4_principal_sum (F r : ℚ) (hF : 0 < F) (hr : 0 < r) :
    monthly_payment r F =
      some (F * (r * (1 + r) ^ 361 / ((1 + r) ^ 361 - 1))) ∧
    (amortization (F * (r * (1 + r) ^ 361 / ((1 + r) ^ 361 - 1))) r F).1.sum
      = F := by
  have hA : 1 < (1 + r) ^ 361 := one_lt_pow₀ (by linarith) (by norm_num)
  have hAne : (1 + r) ^ 361 - 1 ≠ 0 := sub_ne_zero_of_ne (ne_of_gt hA)
  constructor
  · simp only [monthly_payment]
    rw [if_neg hAne]
  · rw [amortization, amortizationAux_principal_sum,
        iterBalance_closed_form _ _ _ (ne_of_gt hr)]
    field_simp
    ring

/-- Claim C4 (witness): the principal-sum invariant instantiated at
F = 1, r = 1. -/
theorem C4_witness :
    0 < (1:ℚ) ∧ 0 < (1:ℚ) ∧
    (monthly_payment 1 1 =
       some (1 * (1 * ((1:ℚ) + 1) ^ 361 / (((1:ℚ) + 1) ^ 361 - 1))) ∧
     (amortization (1 * (1 * ((1:ℚ) + 1) ^ 361 / (((1:ℚ) + 1) ^ 361 - 1)))
        1 1).1.sum = 1) :=
  ⟨by norm_num, by norm_num, C4_principal_sum 1 1 (by norm_num) (by norm_num)⟩

/-- Claim C5: the code's per-period step order (principal first as
`payment - balance*rate`, then `interest = payment - principal`, then
`balance -= principal`) yields exactly the same
(principal, interest, remaining balance) triple as the spec's step order
(interest first as `balance*rate`, then `principal = payment - interest`,
then `balance -= principal`). -/
theorem C5_step_equivalence (p r b : ℚ) :
    codeScheduleStep p r b = specScheduleStep p r b := by
  simp only [codeScheduleStep, specScheduleStep, principal_payment,
    Prod.mk.injEq]
  refine ⟨by ring, by ring, by ring⟩

/-- Claim C6 (counterexample): at financed amount 1 and monthly rate 1 the
payment is `2^361 / (2^361 - 1)`, which is NOT strictly less than the
financed amount. -/
theorem C6_counterexample :
    monthly_payment 1 1 = some ((2:ℚ) ^ 361 / ((2:ℚ) ^ 361 - 1)) ∧
    ¬ ((2:ℚ) ^ 361 / ((2:ℚ) ^ 361 - 1) < 1) := by
  constructor
  · simp only [monthly_payment]
    rw [if_neg (by norm_num : ((1:ℚ) + 1) ^ 361 - 1 ≠ 0)]
    norm_num
  · rw [not_lt, le_div_iff₀ (by norm_num : (0:ℚ) < 2 ^ 361 - 1)]
    norm_num

/-- Claim C6 (amended): for every financed amount F > 0 and monthly rate r
with 0 < r < 360/361, the monthly-payment operation returns a value
strictly between 0 and F; for r ≥ 360/361 the bound `payment < F` can
fail (for example at r = 1). -/
theorem C6_payment_bounds (F r : ℚ) (hF : 0 < F) (hr : 0 < r)
    (hr' : r < 360 / 361) :
    monthly_payment r F =
      some (F * (r * (1 + r) ^ 361 / ((1 + r) ^ 361 - 1))) ∧
    0 < F * (r * (1 + r) ^ 361 / ((1 + r) ^ 361 - 1)) ∧
    F * (r * (1 + r) ^ 361 / ((1 + r) ^ 361 - 1)) < F := by
  have hA : 1 < (1 + r) ^ 361 :=
    one_lt_pow₀ (by linarith) (by norm_num)
  have hApos : (0:ℚ) < (1 + r) ^ 361 := zero_lt_one.trans hA
  have hAne : (1 + r) ^ 361 - 1 ≠ 0 := sub_ne_zero_of_ne (ne_of_gt hA)
  have hbern : 1 + 361 * r ≤ (1 + r) ^ 361 := by
    have h := one_add_mul_le_pow (by linarith : (-2:ℚ) ≤ r) 361
    push_cast at h
    exact h
  have hkey : r * (1 + r) ^ 361 < (1 + r) ^ 361 - 1 :=
    annuity_factor_lt r ((1 + r) ^ 361) hr hr' hbern
  refine ⟨?_, ?_, ?_⟩
  · simp only [monthly_payment]
    rw [if_neg hAne]
  · exact mul_pos hF (div_pos (mul_pos hr hApos) (sub_pos.mpr hA))
  · have hlt : r * (1 + r) ^ 361 / ((1 + r) ^ 361 - 1) < 1 :=
      (div_lt_one (sub_pos.mpr hA)).mpr hkey
    calc F * (r * (1 + r) ^ 361 / ((1 + r) ^ 361 - 1)) < F * 1 :=
          mul_lt_mul_of_pos_left hlt hF
      _ = F := mul_one F

/-- Claim C6 (witness): the amended payment bounds instantiated at
F = 1, r = 1/2. -/
theorem C6_witness :
    0 < (1:ℚ) ∧ 0 < (1/2:ℚ) ∧ (1/2:ℚ) < 360 / 361 ∧
    (monthly_payment (1/2) 1 =
       some (1 * ((1/2) * ((1:ℚ) + 1/2) ^ 361 / (((1:ℚ) + 1/2) ^ 361 - 1))) ∧
     0 < 1 * ((1/2) * ((1:ℚ) + 1/2) ^ 361 / (((1:ℚ) + 1/2) ^ 361 - 1)) ∧
     1 * ((1/2) * ((1:ℚ) + 1/2) ^ 361 / (((1:ℚ) + 1/2) ^ 361 - 1)) < 1) :=
  ⟨by norm_num, by norm_num, by norm_num,
   C6_payment_bounds 1 (1/2) (by norm_num) (by norm_num) (by norm_num)⟩

/-- Claim C7: the down-payment normalizer returns `sale_price * down_pmt`
when `0 ≤ down_pmt ≤ 1` and returns `down_pmt` unchanged otherwise; in
particular a down payment of 100000 on a sale price of 500000 yields a
financed amount of exactly 400000. -/
theorem C7_down_payment_normalizer (d s : ℚ) :
    (0 ≤ d ∧ d ≤ 1 → convert_down_payment d s = s * d) ∧
    (¬ (0 ≤ d ∧ d ≤ 1) → convert_down_payment d s = d) ∧
    500000 - convert_down_payment 100000 500000 = 400000 := by
  refine ⟨fun h => ?_, fun h => ?_, ?_⟩
  · rw [convert_down_payment, if_pos h]
  · rw [convert_down_payment, if_neg h]
  · norm_num [convert_down_payment]

/-- Claim C7 (witness): both branches of the down-payment normalizer and
the end-to-end financed amount, at concrete inputs. -/
theorem C7_witness :
    ((0:ℚ) ≤ 1/2 ∧ (1/2:ℚ) ≤ 1) ∧
    convert_down_payment (1/2) 500000 = 500000 * (1/2) ∧
    ¬ ((0:ℚ) ≤ 100000 ∧ (100000:ℚ) ≤ 1) ∧
    convert_down_payment 100000 500000 = 100000 ∧
    500000 - convert_down_payment 100000 500000 = 400000 :=
  ⟨by norm_num, (C7_down_payment_normalizer (1/2) 500000).1 (by norm_num),
   by norm_num, (C7_down_payment_normalizer 100000 500000).2.1 (by norm_num),
   (C7_down_payment_normalizer 100000 500000).2.2⟩

/-- Claim C8: the rate normalizer returns the rate unchanged when
`0 ≤ rate ≤ 1` and `rate / 100` otherwise; in particular
`convert_rates 0.05 = 0.05`, `convert_rates 5 = 0.05`, and at the boundary
`convert_rates 1 = 1` (kept as a fraction, not divided by 100). -/
theorem C8_rate_normalizer (rate : ℚ) :
    (0 ≤ rate ∧ rate ≤ 1 → convert_rates rate = rate) ∧
    (¬ (0 ≤ rate ∧ rate ≤ 1) → convert_rates rate = rate / 100) ∧
    convert_rates (1/20) = 1/20 ∧ convert_rates 5 = 1/20 ∧
    convert_rates 1 = 1 := by
  refine ⟨fun h => ?_, fun h => ?_, ?_, ?_, ?_⟩
  · rw [convert_rates, if_pos h]
  · rw [convert_rates, if_neg h]
  · norm_num [convert_rates]
  · norm_num [convert_rates]
  · norm_num [convert_rates]

/-- Claim C8 (witness): both branches of the rate normalizer at concrete
inputs. -/
theorem C8_witness :
    ((0:ℚ) ≤ 1 ∧ (1:ℚ) ≤ 1) ∧ convert_rates 1 = 1 ∧
    ¬ ((0:ℚ) ≤ 5 ∧ (5:ℚ) ≤ 1) ∧ convert_rates 5 = 5 / 100 ∧
    convert_rates (1/20) = 1/20 :=
  ⟨by norm_num, (C8_rate_normalizer 1).1 (by norm_num),
   by norm_num, (C8_rate_normalizer 5).2.1 (by norm_num),
   (C8_rate_normalizer 0).2.2.1⟩

/-- Claim C9: for every monthly payment, nonnegative monthly rate and
starting balance, if the monthly payment strictly exceeds the first row's
interest payment then the remaining balance is non-increasing across all
consecutive rows of the schedule. -/
theorem C9_balance_monotone (p r b : ℚ) (hr : 0 ≤ r)
    (hfirst : (amortization p r b).2.1.getD 0 0 < p) :
    ∀ i : Nat, i + 1 < 361 →
      (amortization p r b).2.2.getD (i + 1) 0 ≤
        (amortization p r b).2.2.getD i 0 := by
  have hb : b * r < p := by rwa [amortization_first_interest] at hfirst
  have hchain := amortizationAux_balance_chain p r hr 361 b hb
  have hchain' : List.Chain' (fun x y => y ≤ x) (amortization p r b).2.2 := by
    simpa [amortization] using hchain.tail
  have hlen : (amortization p r b).2.2.length = 361 := by
    simpa [amortization] using (amortizationAux_length p r b 361).2.2
  intro i hi
  rw [List.chain'_iff_get] at hchain'
  have h := hchain' i (by omega)
  rw [List.getD_eq_get _ _ (by omega), List.getD_eq_get _ _ (by omega)]
  exact h

/-- Claim C9 (witness): monotone balances at payment 1, rate 0, starting
balance 5, checked on the first pair of consecutive rows. -/
theorem C9_witness :
    (0:ℚ) ≤ 0 ∧ (amortization 1 0 5).2.1.getD 0 0 < 1 ∧
    (amortization 1 0 5).2.2.getD (0 + 1) 0 ≤
      (amortization 1 0 5).2.2.getD 0 0 := by
  have hfirst : (amortization 1 0 5).2.1.getD 0 0 < 1 := by
    rw [amortization_first_interest]
    norm_num
  exact ⟨le_refl 0, hfirst,
    C9_balance_monotone 1 0 5 (le_refl 0) hfirst 0 (by norm_num)⟩

/-- Claim C10: every row of the schedule satisfies
`principal + interest = monthly payment` exactly, and its remaining
balance equals the previous period's balance (the starting financed
amount for the first row) minus its principal payment. -/
theorem C10_row_accounting (p r b : ℚ) (i : Nat) (hi : i < 361) :
    (amortization p r b).1.getD i 0 + (amortization p r b).2.1.getD i 0 = p ∧
    (amortization p r b).2.2.getD i 0 =
      (if i = 0 then b else (amortization p r b).2.2.getD (i - 1) 0) -
        (amortization p r b).1.getD i 0 := by
  simpa [amortization] using amortizationAux_row_identity p r 361 b i hi

/-- Claim C10 (witness): the per-row accounting identity at payment 1,
rate 0, starting balance 5, row 0. -/
theorem C10_witness :
    (0:Nat) < 361 ∧
    ((amortization 1 0 5).1.getD 0 0 + (amortization 1 0 5).2.1.getD 0 0 = 1 ∧
     (amortization 1 0 5).2.2.getD 0 0 =
       (if (0:Nat) = 0 then (5:ℚ) else (amortization 1 0 5).2.2.getD (0 - 1) 0) -
         (amortization 1 0 5).1.getD 0 0) :=
  ⟨by norm_num, C10_row_accounting 1 0 5 0 (by norm_num)⟩

end LoanCalc
